import Mathlib

set_option maxRecDepth 8000

/-
Verification of the mirror-failover resolution and acquisition pipeline of
src/app.py (The Monolith), via a shallow embedding in Lean.

The embedding translates the pure logic of the program directly:
  - clean_text            -> cleanText
  - the md5 regex findall -> findMd5s          (the literal automaton of the
                             pattern href="book/index.php?md5=([A-Fa-f0-9]x32)")
  - the href regex        -> findHrefs
  - manual_search         -> manualSearch      (mirror I/O abstracted as a
                             MirrorBehavior value describing each response)
  - /api/search handler   -> searchApi
  - download_book         -> downloadBook      (filesystem as an explicit
                             association list, network as an AcqWorld value;
                             the result also carries the number of network
                             requests performed)
-/

namespace Monolith

/-- Python str.split with no argument splits on runs of whitespace:
space, tab, newline, carriage return, vertical tab, form feed. -/
def isPyWs (c : Char) : Bool :=
  c = ' ' ∨ c = '\t' ∨ c = '\n' ∨ c = '\r' ∨ c = Char.ofNat 11 ∨ c = Char.ofNat 12

/-- Accumulating scanner behind pySplit: acc holds the current word reversed. -/
def pySplitAux : List Char → List Char → List String
  | [], [] => []
  | [], acc => [String.mk acc.reverse]
  | c :: cs, acc =>
    if isPyWs c then
      match acc with
      | [] => pySplitAux cs []
      | _ => String.mk acc.reverse :: pySplitAux cs []
    else pySplitAux cs (c :: acc)

/-- text.split() in Python: the maximal whitespace-free pieces, in order. -/
def pySplit (s : String) : List String :=
  pySplitAux s.toList []

/-- The step text = " ".join(text.split()) of clean_text. -/
def collapseWs (s : String) : String :=
  String.intercalate " " (pySplit s)

/-- Python str.capitalize: first character uppercased, the rest lowercased. -/
def pyCapitalize (w : String) : String :=
  match w.toList with
  | [] => ""
  | c :: cs => String.mk (c.toUpper :: cs.map Char.toLower)

/-- string.capwords: split on whitespace, capitalize each word, join with a
single space. -/
def capwords (s : String) : String :=
  String.intercalate " " ((pySplit s).map pyCapitalize)

/-- The character class of re.sub in clean_text: backslash, slash, star,
question mark, colon, double quote, angle brackets, pipe. -/
def isUnsafeChar (c : Char) : Bool :=
  c = '\\' ∨ c = '/' ∨ c = '*' ∨ c = '?' ∨ c = ':' ∨ c = '"' ∨ c = '<' ∨ c = '>' ∨ c = '|'

/-- re.sub deleting every filesystem-unsafe character. -/
def stripUnsafe (s : String) : String :=
  String.mk (s.toList.filter (fun c => ¬ isUnsafeChar c))

/-- clean_text of src/app.py. A Python value that is None or the empty string
is falsy, so clean_text returns the sentinel "Unknown" for both; otherwise it
collapses whitespace, applies string.capwords, and deletes unsafe characters. -/
def cleanText : Option String → String
  | none => "Unknown"
  | some s => if s = "" then "Unknown" else stripUnsafe (capwords (collapseWs s))

/-- How a Python f-string renders an Optional value: None prints as "None". -/
def pyStr : Option String → String
  | none => "None"
  | some s => s

/-- Matches a literal list of characters at the head of the input and returns
the remainder, or none. -/
def matchLit : List Char → List Char → Option (List Char)
  | [], cs => some cs
  | _ :: _, [] => none
  | p :: ps, c :: cs => if c = p then matchLit ps cs else none

/-- Hexadecimal digit in the sense of the character class A-Fa-f0-9. -/
def isHexChar (c : Char) : Bool :=
  ('0' ≤ c ∧ c ≤ '9') ∨ ('a' ≤ c ∧ c ≤ 'f') ∨ ('A' ≤ c ∧ c ≤ 'F')

/-- Reads exactly n hexadecimal characters, returning them with the rest. -/
def takeHexN : Nat → List Char → Option (List Char × List Char)
  | 0, cs => some ([], cs)
  | _ + 1, [] => none
  | n + 1, c :: cs =>
    if isHexChar c then (takeHexN n cs).map (fun p => (c :: p.1, p.2)) else none

/-- The literal part of the md5 search pattern of manual_search. -/
def md5Lit : List Char := "href=\"book/index.php?md5=".toList

/-- Tries the whole md5 pattern at the head of the input: the literal prefix,
then exactly 32 hex characters, then the closing double quote. On success
returns the captured 32-character group and the input after the match. -/
def md5At (cs : List Char) : Option (String × List Char) :=
  match matchLit md5Lit cs with
  | none => none
  | some rest =>
    match takeHexN 32 rest with
    | none => none
    | some (hex, rest2) =>
      match rest2 with
      | '"' :: rest3 => some (String.mk hex, rest3)
      | _ => none

/-- Scanner loop of re.findall for the md5 pattern: at each position try the
pattern; on a match emit the group and resume after the match (non-overlapping,
document order); otherwise advance one character. Fuel bounds the scan by the
input length, which every step decreases. -/
def findMd5sAux : Nat → List Char → List String
  | 0, _ => []
  | _ + 1, [] => []
  | fuel + 1, c :: cs =>
    match md5At (c :: cs) with
    | some (m, rest) => m :: findMd5sAux fuel rest
    | none => findMd5sAux fuel cs

/-- re.findall of the pattern href="book/index.php?md5=([A-Fa-f0-9]x32)" over
the page body, as in manual_search. Returns the captured groups in document
order, duplicates included, exactly as re.findall does. -/
def findMd5s (s : String) : List String :=
  findMd5sAux s.length s.toList

/-- Lowercasing as Python str.lower on ASCII data, used on the extension. -/
def pyLower (s : String) : String :=
  String.mk (s.toList.map Char.toLower)

/-- Python str.strip() with no argument: trim whitespace on both sides. -/
def pyStrip (s : String) : String :=
  String.mk (((s.toList.dropWhile isPyWs).reverse.dropWhile isPyWs).reverse)

/-- One item of the json.php metadata response, with the fields manual_search
requests: id is never read back, so it is omitted; every other read field is
optional because item.get returns None for a missing key. -/
structure RawItem where
  title : Option String
  author : Option String
  year : Option String
  extension : Option String
  md5 : Option String
  filesize : Option String
deriving DecidableEq

/-- A search record as built by manual_search: the dict appended to out. -/
structure Record where
  title : String
  author : String
  year : Option String
  extension : String
  size : Option String
  download_url : String
deriving DecidableEq

/-- Outcome of the requests.get against a mirror search page: a raised
exception (transport failure or timeout), or a response with a status code
and a body text. -/
inductive Fetch where
  | failure
  | ok (status : Nat) (body : String)
deriving DecidableEq

/-- Observable behavior of one mirror during one manual_search call:
the search-page response, and the metadata outcome. metaItems = none means
the json.php request raised or its body failed to parse as a list of items
(requests.get or .json() raised); metaItems = some data is a parsed list.
The code never branches between the metadata failure modes: any exception
lands in the same except-continue, so one none covers them all. -/
structure MirrorBehavior where
  searchResp : Fetch
  metaItems : Option (List RawItem)

/-- The fixed gateway template of manual_search applied to an identifier. -/
def gatewayUrl (md5 : Option String) : String :=
  "http://library.lol/main/" ++ pyStr md5

/-- The body of the per-item loop of manual_search: lowercase the extension,
drop the item unless it is pdf or epub, otherwise build the record with
cleaned title and author, raw year and filesize, and the gateway url. -/
def processItem (item : RawItem) : Option Record :=
  if pyLower (item.extension.getD "") = "pdf" ∨ pyLower (item.extension.getD "") = "epub" then
    some { title := cleanText item.title
           author := cleanText item.author
           year := item.year
           extension := pyLower (item.extension.getD "")
           size := item.filesize
           download_url := gatewayUrl item.md5 }
  else none

/-- One iteration of the mirror loop of manual_search, given the behavior of
the mirror: an empty list means the iteration contributed nothing and the
loop continues (transport failure, bad status, no md5 on the page, metadata
exception, or every item filtered out); a non-empty list is the out list the
function returns at the first-success check. The md5 list is capped at 15
for the metadata request url; the cap does not change which records come
back in this model because metaItems already is the parsed answer. -/
def tryMirror (b : MirrorBehavior) : List Record :=
  match b.searchResp with
  | .failure => []
  | .ok status body =>
    if status ≠ 200 then []
    else if findMd5s body = [] then []
    else
      match b.metaItems with
      | none => []
      | some data => data.filterMap processItem

/-- The mirror walk of manual_search, also counting how many mirrors were
contacted: the walk stops at the first mirror whose iteration yields a
non-empty out, which is returned as is; a mirror beyond the stopping point
is never contacted. Exhausting the list returns the empty list. -/
def manualSearchAux : List MirrorBehavior → List Record × Nat
  | [] => ([], 0)
  | b :: rest =>
    match tryMirror b with
    | [] =>
      let p := manualSearchAux rest
      (p.1, p.2 + 1)
    | r :: rs => (r :: rs, 1)

/-- manual_search of src/app.py over a list of mirror behaviors. -/
def manualSearch (ms : List MirrorBehavior) : List Record :=
  (manualSearchAux ms).1

/-- Number of mirrors the walk contacted, in registry order from the head. -/
def mirrorsContacted (ms : List MirrorBehavior) : Nat :=
  (manualSearchAux ms).2

/-- Result returned by the /api/search route: a JSON record list with
status 200 (an empty list when nothing was found), or the status 400 error
for a blank query. manualSearch is total, so the except branch of the route
(status 500) is unreachable in the embedding and has no constructor. -/
inductive ApiResult where
  | okRecords (records : List Record)
  | clientError (msg : String)
deriving DecidableEq

/-- The /api/search handler: strip the query, reject a blank one with the
client error, otherwise run the mirror walk and return its list, which is
returned as an empty 200 list when no mirror produced records. -/
def searchApi (q : String) (ms : List MirrorBehavior) : ApiResult :=
  if pyStrip q = "" then .clientError "missing query"
  else .okRecords (manualSearch ms)

end Monolith


namespace Monolith

/-- The 32-character hexadecimal identifier of the concrete scenarios. -/
def exTok : String := "a1b2c3d4e5f6a1b2c3d4e5f6a1b2c3d4"

/-- A search-page body containing one identifier link. -/
def exBody : String := "<tr><td><a href=\"book/index.php?md5=a1b2c3d4e5f6a1b2c3d4e5f6a1b2c3d4\">Dune</a></td></tr>"

/-- The raw metadata item of the dune end-to-end scenario. -/
def exItem : RawItem := { title := some "dune messiah", author := some "frank herbert", year := some "1969", extension := some "EPUB", md5 := some exTok, filesize := some "4096" }

end Monolith


namespace Monolith

/-- Reads characters up to the next double quote; returns them and the input
after the quote, or none when the quote never comes (the regex group needs a
closing quote to match). -/
def takeToQuote : List Char → Option (List Char × List Char)
  | [] => none
  | c :: cs =>
    if c = '"' then some ([], cs)
    else (takeToQuote cs).map (fun p => (c :: p.1, p.2))

/-- The literal part of the href pattern of download_book. -/
def hrefLit : List Char := "<a href=\"".toList

/-- Tries the href pattern at the head of the input: the literal anchor
opening, then a shortest run up to the next double quote as the group. -/
def hrefAt (cs : List Char) : Option (String × List Char) :=
  match matchLit hrefLit cs with
  | none => none
  | some rest =>
    match takeToQuote rest with
    | none => none
    | some (grp, rest2) => some (String.mk grp, rest2)

/-- Scanner loop of re.findall for the href pattern, as for findMd5sAux. -/
def findHrefsAux : Nat → List Char → List String
  | 0, _ => []
  | _ + 1, [] => []
  | fuel + 1, c :: cs =>
    match hrefAt (c :: cs) with
    | some (m, rest) => m :: findHrefsAux fuel rest
    | none => findHrefsAux fuel cs

/-- re.findall of the download-link pattern over the landing-page body:
every anchor href group in document order. -/
def findHrefs (s : String) : List String :=
  findHrefsAux s.length s.toList

/-- The test m.startswith of the link loop of download_book. -/
def startsHttp (s : String) : Bool :=
  "http".toList.isPrefixOf s.toList

/-- The link loop of download_book: walk the matches in order, skip one that
does not start with http, stop at the first that does; when none does, fall
back to the original landing-page url. -/
def resolveGateway (rawUrl : String) (body : String) : String :=
  match (findHrefs body).find? startsHttp with
  | some m => m
  | none => rawUrl

/-- Modelled from the spec: the missing degraded-into-spec comparison point
for the Gateway Resolver. The spec asks for the first absolute
(scheme-qualified) link; this selector takes the first href whose shape is
a nonempty alphabetic scheme followed by colon-slash-slash, falling back to
the landing-page url when there is none. -/
def isSchemeQualified (s : String) : Bool :=
  let cs := s.toList
  let scheme := cs.takeWhile Char.isAlpha
  scheme ≠ [] ∧ (cs.drop scheme.length).take 3 = [':', '/', '/']

/-- Modelled from the spec: the Gateway Resolver as the spec words it, to be
compared with resolveGateway from the source. -/
def resolveGatewaySpec (rawUrl : String) (body : String) : String :=
  match (findHrefs body).find? isSchemeQualified with
  | some m => m
  | none => rawUrl

/-- The library root configured at the top of src/app.py. -/
def LIBRARY_PATH : String := "/app/library"

/-- The JSON payload of a /api/download request, field per field as
download_book reads it. none stands for an absent key; data.get then yields
the written default. -/
structure DlRequest where
  url : Option String
  author : Option String
  title : Option String
  year : Option String
  extension : Option String
deriving DecidableEq

/-- The cleaned author directory component of download_book. -/
def dlAuthor (d : DlRequest) : String :=
  cleanText (some (d.author.getD "Unknown Author"))

/-- The cleaned title component of download_book. -/
def dlTitle (d : DlRequest) : String :=
  cleanText (some (d.title.getD "Unknown Title"))

/-- The filename string of download_book built from title, year, extension. -/
def dlFilename (d : DlRequest) : String :=
  dlTitle d ++ " (" ++ d.year.getD "" ++ ")." ++ d.extension.getD "pdf"

/-- The full target path, joined as os.path.join does on the library root,
the author directory and the filename. Computed from the request alone,
before any network access. -/
def targetPath (d : DlRequest) : String :=
  LIBRARY_PATH ++ "/" ++ dlAuthor d ++ "/" ++ dlFilename d

/-- The filesystem as the association of each existing path to its content;
directories are not tracked because only file existence and file content
matter to the claims. -/
abbrev FS : Type := List (String × String)

/-- os.path.exists on the embedded filesystem. -/
def fileExists (p : String) (fs : FS) : Bool :=
  fs.any (fun e => e.1 = p)

/-- Writing a file at a path (open wb plus the chunk loop, completed or not). -/
def writeFile (p : String) (content : String) (fs : FS) : FS :=
  (p, content) :: fs

/-- Outcome of the file-transfer request of download_book. netError: the
requests.get itself raised (connection reset, timeout). badStatus: a
response whose non-success status makes raise_for_status raise, before the
body is consumed. stream: a success status whose body streams the given
chunks; interrupted = some msg means the connection broke with that error
after those chunks were already written, interrupted = none is a complete
transfer. -/
inductive FileResp where
  | netError (msg : String)
  | badStatus (code : Nat)
  | stream (chunks : List String) (interrupted : Option String)

/-- Observable network behavior during one download_book call: the landing
page body (none when the gateway requests.get raised), and the transfer
response as a function of the url the code resolved and fetches. -/
structure AcqWorld where
  gatewayBody : Option String
  fileResp : String → FileResp

/-- The JSON reply of the /api/download route, one constructor per return
site of download_book. -/
inductive DlResult where
  | invalidInput (msg : String)
  | alreadyExists (filename : String)
  | acquired (filename : String)
  | failed (reason : String)
deriving DecidableEq

/-- The message str(e) carries for a raise_for_status error, kept abstract
as to its exact text but injective in the status code. -/
def statusReason (code : Nat) : String :=
  "HTTP error " ++ toString code

/-- download_book of src/app.py. Returns the route reply, the filesystem
after the call, and how many network requests the call performed. The
target path is computed from the request fields before anything else; an
existing file short-circuits before the gateway request; a gateway
exception or a transfer exception lands in the except branch as a failed
reply; the chunk loop writes straight to the target path, so an interrupted
stream leaves the partial content there. -/
def downloadBook (d : DlRequest) (w : AcqWorld) (fs : FS) : DlResult × FS × Nat :=
  if d.url.getD "" = "" then (.invalidInput "No URL provided", fs, 0)
  else if fileExists (targetPath d) fs then (.alreadyExists (dlFilename d), fs, 0)
  else
    match w.gatewayBody with
    | none => (.failed "gateway unreachable", fs, 1)
    | some body =>
      match w.fileResp (resolveGateway (d.url.getD "") body) with
      | .netError msg => (.failed msg, fs, 2)
      | .badStatus code => (.failed (statusReason code), fs, 2)
      | .stream chunks interrupted =>
        match interrupted with
        | some msg => (.failed msg, writeFile (targetPath d) (String.join chunks) fs, 2)
        | none => (.acquired (dlFilename d), writeFile (targetPath d) (String.join chunks) fs, 2)

end Monolith

namespace Monolith

/-- Expected record of the end-to-end dune scenario: the item exItem after
normalization. -/
def duneRecord : Record :=
  { title := "Dune Messiah"
    author := "Frank Herbert"
    year := some "1969"
    extension := "epub"
    size := some "4096"
    download_url := "http://library.lol/main/a1b2c3d4e5f6a1b2c3d4e5f6a1b2c3d4" }

/-- Mirror A of the ordering scenario: transport failure. -/
def mirrorA : MirrorBehavior := ⟨.failure, none⟩

/-- Mirror B of the ordering scenario: reachable page without identifiers. -/
def mirrorB : MirrorBehavior := ⟨.ok 200 "<html>no results for this query</html>", none⟩

/-- An item of each allowed extension plus a pdf sibling, used by mirror C. -/
def pdfItem : RawItem := { exItem with title := some "dune", extension := some "PDF" }

/-- A second pdf item so that mirror C returns three records. -/
def pdfItem2 : RawItem := { exItem with title := some "children of dune", extension := some "pdf" }

/-- Mirror C of the ordering scenario: identifiers found, metadata succeeds
with three usable items. -/
def mirrorC : MirrorBehavior := ⟨.ok 200 exBody, some [exItem, pdfItem, pdfItem2]⟩

/-- Mirror D of the ordering scenario, ranked after C; it would succeed,
which the walk must never discover. -/
def mirrorD : MirrorBehavior := ⟨.ok 200 exBody, some [exItem]⟩

/-- A mirror answering with a non-success status. -/
def mirrorBad : MirrorBehavior := ⟨.ok 503 exBody, some [exItem]⟩

/-- A mirror whose search page yields an identifier but whose metadata
request fails: the degraded-mode scenario. -/
def mirrorMetaFail : MirrorBehavior := ⟨.ok 200 exBody, none⟩

/-- A page containing the same identifier twice, as when one artifact is
linked twice. -/
def dupBody : String :=
  "<a href=\"book/index.php?md5=a1b2c3d4e5f6a1b2c3d4e5f6a1b2c3d4\">x</a> <a href=\"book/index.php?md5=a1b2c3d4e5f6a1b2c3d4e5f6a1b2c3d4\">y</a>"

/-- An item carrying the disallowed extension mobi. -/
def mobiItem : RawItem := { exItem with title := some "dune but mobi", extension := some "mobi" }

/-- A mirror returning a mobi item next to a usable epub item. -/
def mirrorMixed : MirrorBehavior := ⟨.ok 200 exBody, some [mobiItem, exItem]⟩

/-- The single-mirror registry of the dune end-to-end scenario. -/
def mirrorDune : MirrorBehavior := ⟨.ok 200 exBody, some [exItem]⟩

/-- An item whose title is present but consists of one space. -/
def wsItem : RawItem := { exItem with title := some " " }

/-- A mirror returning the whitespace-titled item. -/
def mirrorWs : MirrorBehavior := ⟨.ok 200 exBody, some [wsItem]⟩

/-- An item with the title key absent. -/
def noTitleItem : RawItem := { exItem with title := none }

/-- The record built from noTitleItem. -/
def noTitleRecord : Record := { duneRecord with title := "Unknown" }

/-- The spec example body for the Gateway Resolver. -/
def exGateBody : String :=
  "<a href=\"/relative\">x</a><a href=\"http://files.example/book.pdf\">y</a>"

/-- A landing page whose only absolute link carries a non-http scheme. -/
def ftpBody : String := "<a href=\"ftp://files.example/book.pdf\">mirror</a>"

/-- The acquisition request of the concrete download scenarios. -/
def dEx : DlRequest :=
  { url := some "http://library.lol/main/a1b2c3d4e5f6a1b2c3d4e5f6a1b2c3d4"
    author := some "frank herbert"
    title := some "dune messiah"
    year := some "1969"
    extension := some "epub" }

/-- A network in which the gateway resolves and the transfer completes with
one chunk. -/
def wOk : AcqWorld := ⟨some exGateBody, fun _ => .stream ["DATA"] none⟩

/-- A network that is entirely down, to show the short-circuit touches
nothing. -/
def wDown : AcqWorld := ⟨none, fun _ => .netError "network down"⟩

/-- A network whose transfer breaks mid-stream after one chunk. -/
def wReset : AcqWorld := ⟨some exGateBody, fun _ => .stream ["PARTIAL"] (some "Connection reset by peer")⟩

/-- A network whose transfer answers with a non-success status. -/
def wNotFound : AcqWorld := ⟨some exGateBody, fun _ => .badStatus 404⟩

end Monolith


namespace Monolith

theorem manualSearchAux_cons_nil (b : MirrorBehavior) (rest : List MirrorBehavior)
    (h : tryMirror b = []) :
    manualSearchAux (b :: rest) = ((manualSearchAux rest).1, (manualSearchAux rest).2 + 1) := by
  show (match tryMirror b with
    | [] => ((manualSearchAux rest).1, (manualSearchAux rest).2 + 1)
    | r :: rs => (r :: rs, 1)) = ((manualSearchAux rest).1, (manualSearchAux rest).2 + 1)
  rw [h]

theorem manualSearchAux_cons_some (b : MirrorBehavior) (rest : List MirrorBehavior)
    (r : Record) (rs : List Record) (h : tryMirror b = r :: rs) :
    manualSearchAux (b :: rest) = (r :: rs, 1) := by
  show (match tryMirror b with
    | [] => ((manualSearchAux rest).1, (manualSearchAux rest).2 + 1)
    | x :: xs => (x :: xs, 1)) = (r :: rs, 1)
  rw [h]

theorem tryMirror_metaNone (b : MirrorBehavior) (h : b.metaItems = none) :
    tryMirror b = [] := by
  obtain ⟨sr, mi⟩ := b
  simp only at h
  subst h
  cases sr with
  | failure => rfl
  | ok status body =>
    show (if status ≠ 200 then [] else if findMd5s body = [] then []
      else match (none : Option (List RawItem)) with
        | none => ([] : List Record)
        | some data => data.filterMap processItem) = []
    split_ifs <;> rfl

theorem processItem_char (item : RawItem) (r : Record) (h : processItem item = some r) :
    r = { title := cleanText item.title, author := cleanText item.author,
          year := item.year, extension := pyLower (item.extension.getD ""),
          size := item.filesize, download_url := gatewayUrl item.md5 } ∧
    (pyLower (item.extension.getD "") = "pdf" ∨ pyLower (item.extension.getD "") = "epub") := by
  unfold processItem at h
  by_cases hc : pyLower (item.extension.getD "") = "pdf" ∨ pyLower (item.extension.getD "") = "epub"
  · rw [if_pos hc] at h
    injection h with h2
    exact ⟨h2.symm, hc⟩
  · rw [if_neg hc] at h
    exact absurd h (by simp)

theorem mem_tryMirror (b : MirrorBehavior) (r : Record) (h : r ∈ tryMirror b) :
    ∃ item, processItem item = some r := by
  obtain ⟨sr, mi⟩ := b
  cases sr with
  | failure => simp [tryMirror] at h
  | ok status body =>
    have h2 : r ∈ (if status ≠ 200 then [] else if findMd5s body = [] then []
      else match mi with
        | none => ([] : List Record)
        | some data => data.filterMap processItem) := h
    split_ifs at h2
    · simp at h2
    · simp at h2
    · cases mi with
      | none => simp at h2
      | some data =>
        have h3 : r ∈ data.filterMap processItem := h2
        rw [List.mem_filterMap] at h3
        obtain ⟨item, _, hi⟩ := h3
        exact ⟨item, hi⟩

theorem mem_manualSearch (ms : List MirrorBehavior) (r : Record)
    (h : r ∈ manualSearch ms) : ∃ b ∈ ms, r ∈ tryMirror b := by
  induction ms with
  | nil => simp [manualSearch, manualSearchAux] at h
  | cons b rest ih =>
    cases htb : tryMirror b with
    | nil =>
      have h2 : r ∈ manualSearch rest := by
        have heq := manualSearchAux_cons_nil b rest htb
        unfold manualSearch at h
        rw [heq] at h
        exact h
      obtain ⟨b2, hb2, hr2⟩ := ih h2
      exact ⟨b2, List.mem_cons_of_mem b hb2, hr2⟩
    | cons x xs =>
      unfold manualSearch at h
      rw [manualSearchAux_cons_some b rest x xs htb] at h
      exact ⟨b, List.mem_cons_self b rest, by rw [htb]; exact h⟩

theorem manualSearch_nil_of_all_nil (ms : List MirrorBehavior)
    (h : ∀ b ∈ ms, tryMirror b = []) : manualSearch ms = [] := by
  induction ms with
  | nil => rfl
  | cons b rest ih =>
    show (manualSearchAux (b :: rest)).1 = []
    rw [manualSearchAux_cons_nil b rest (h b (List.mem_cons_self b rest))]
    exact ih (fun x hx => h x (List.mem_cons_of_mem b hx))

theorem findMd5sAux_nil (fuel : Nat) (cs : List Char)
    (h : ∀ i, md5At (cs.drop i) = none) : findMd5sAux fuel cs = [] := by
  induction fuel generalizing cs with
  | zero => rfl
  | succ n ih =>
    cases cs with
    | nil => rfl
    | cons c cs =>
      have h0 : md5At (c :: cs) = none := h 0
      unfold findMd5sAux
      rw [h0]
      exact ih cs (fun i => h (i + 1))

theorem find_congr (l : List String) (p q : String → Bool)
    (h : ∀ x ∈ l, p x = q x) : l.find? p = l.find? q := by
  induction l with
  | nil => rfl
  | cons x xs ih =>
    have hx := h x (List.mem_cons_self x xs)
    simp only [List.find?]
    rw [hx]
    cases q x
    · exact ih (fun y hy => h y (List.mem_cons_of_mem x hy))
    · rfl

theorem fileExists_writeFile (p : String) (c : String) (fs : FS) :
    fileExists p (writeFile p c fs) = true := by
  simp [fileExists, writeFile]

theorem downloadBook_acquired_inv (d : DlRequest) (w : AcqWorld) (fs fs2 : FS)
    (fn : String) (n : Nat) (h : downloadBook d w fs = (.acquired fn, fs2, n)) :
    ∃ body chunks,
      d.url.getD "" ≠ "" ∧ fileExists (targetPath d) fs = false ∧
      w.gatewayBody = some body ∧
      w.fileResp (resolveGateway (d.url.getD "") body) = .stream chunks none ∧
      fn = dlFilename d ∧ fs2 = writeFile (targetPath d) (String.join chunks) fs := by
  unfold downloadBook at h
  split at h
  · exact absurd h (by simp)
  · next hu =>
    split at h
    · exact absurd h (by simp)
    · next hex =>
      split at h
      · exact absurd h (by simp)
      · next body hg =>
        split at h
        · exact absurd h (by simp)
        · exact absurd h (by simp)
        · next chunks interrupted hf =>
          cases interrupted with
          | some msg => exact absurd h (by simp)
          | none =>
            simp only [Prod.mk.injEq, DlResult.acquired.injEq] at h
            exact ⟨body, chunks, hu, by simpa using hex, hg, hf, h.1.symm, h.2.1.symm⟩

end Monolith

namespace Monolith

/-- C1: the search walks mirrors strictly in registry order and is
first-success-wins: when every mirror before position k contributes nothing
and the mirror at position k yields a non-empty list, manual_search returns
exactly that list, and the number of mirrors contacted is k plus one, so no
mirror ranked after the winner is ever contacted. -/
theorem C1_first_success_wins (pre : List MirrorBehavior) (b : MirrorBehavior)
    (post : List MirrorBehavior)
    (hpre : ∀ x ∈ pre, tryMirror x = []) (hb : tryMirror b ≠ []) :
    manualSearch (pre ++ b :: post) = tryMirror b ∧
    mirrorsContacted (pre ++ b :: post) = pre.length + 1 := by
  induction pre with
  | nil =>
    obtain ⟨r, rs, hrs⟩ := List.exists_cons_of_ne_nil hb
    constructor
    · show (manualSearchAux (b :: post)).1 = _
      rw [manualSearchAux_cons_some b post r rs hrs, hrs]
    · show (manualSearchAux (b :: post)).2 = List.length [] + 1
      rw [manualSearchAux_cons_some b post r rs hrs]
      rfl
  | cons x xs ih =>
    have hx : tryMirror x = [] := hpre x (List.mem_cons_self x xs)
    have ihr := ih (fun y hy => hpre y (List.mem_cons_of_mem x hy))
    constructor
    · show (manualSearchAux (x :: (xs ++ b :: post))).1 = _
      rw [manualSearchAux_cons_nil x (xs ++ b :: post) hx]
      exact ihr.1
    · show (manualSearchAux (x :: (xs ++ b :: post))).2 = (x :: xs).length + 1
      rw [manualSearchAux_cons_nil x (xs ++ b :: post) hx]
      show (manualSearchAux (xs ++ b :: post)).2 + 1 = (x :: xs).length + 1
      have h2 : (manualSearchAux (xs ++ b :: post)).2 = xs.length + 1 := ihr.2
      rw [h2, List.length_cons]

/-- Witness for C1: with mirrors A (transport failure), B (page without
identifiers), C (three usable records) and D (ranked after C), the search
returns the records of C and contacts exactly three mirrors, so D is never
contacted. -/
theorem C1_witness :
    manualSearch [mirrorA, mirrorB, mirrorC, mirrorD] = tryMirror mirrorC ∧
    mirrorsContacted [mirrorA, mirrorB, mirrorC, mirrorD] = 3 :=
  C1_first_success_wins [mirrorA, mirrorB] mirrorC [mirrorD] (by decide) (by decide)

/-- Counterexample to C2: a registry of one mirror whose search page yields
an identifier but whose metadata call fails produces an empty result list,
not the non-empty placeholder list the claim asserts. -/
theorem C2_counterexample :
    findMd5s exBody = [exTok] ∧ mirrorMetaFail.metaItems = none ∧
    manualSearch [mirrorMetaFail] = [] :=
  ⟨by decide, rfl, by decide⟩

/-- C2 as amended: the code implements no degraded mode. A mirror whose
metadata lookup fails contributes no records at all, and the walk simply
continues with the remaining mirrors. -/
theorem C2_no_degraded_mode (b : MirrorBehavior) (ms : List MirrorBehavior)
    (h : b.metaItems = none) :
    tryMirror b = [] ∧ manualSearch (b :: ms) = manualSearch ms := by
  have ht := tryMirror_metaNone b h
  refine ⟨ht, ?_⟩
  show (manualSearchAux (b :: ms)).1 = _
  rw [manualSearchAux_cons_nil b ms ht]
  rfl

/-- Witness for the amended C2 at the concrete metadata-failure mirror. -/
theorem C2_witness :
    tryMirror mirrorMetaFail = [] ∧
    manualSearch [mirrorMetaFail] = manualSearch [] :=
  C2_no_degraded_mode mirrorMetaFail [] rfl

/-- C3: when every mirror is exhausted with zero usable results, the search
returns the empty record list, and the route answers with a well-formed
empty 200 list rather than any error. -/
theorem C3_exhausted_search_is_empty_ok (q : String) (ms : List MirrorBehavior)
    (hq : pyStrip q ≠ "") (h : ∀ b ∈ ms, tryMirror b = []) :
    manualSearch ms = [] ∧ searchApi q ms = .okRecords [] := by
  have hm := manualSearch_nil_of_all_nil ms h
  refine ⟨hm, ?_⟩
  unfold searchApi
  rw [if_neg hq, hm]

/-- Witness for C3: transport failure, bad status, empty page and metadata
failure all exhaust, and the route returns the empty 200 list. -/
theorem C3_witness :
    manualSearch [mirrorA, mirrorBad, mirrorB, mirrorMetaFail] = [] ∧
    searchApi "dune" [mirrorA, mirrorBad, mirrorB, mirrorMetaFail] = .okRecords [] :=
  C3_exhausted_search_is_empty_ok "dune" [mirrorA, mirrorBad, mirrorB, mirrorMetaFail]
    (by decide) (by decide)

/-- Counterexample to C4: a page carrying the same identifier twice makes
the extractor return that token twice, not exactly once as the claim
asserts, because re.findall does not deduplicate. -/
theorem C4_counterexample :
    findMd5s dupBody = [exTok, exTok] ∧ (findMd5s dupBody).count exTok = 2 :=
  ⟨by decide, by decide⟩

/-- C4 as amended: extraction preserves duplicates in document order, and
for input with no occurrence of the matching shape anywhere it returns the
empty list rather than an error. -/
theorem C4_no_match_empty (s : String)
    (h : ∀ i < s.length, md5At (s.toList.drop i) = none) : findMd5s s = [] := by
  unfold findMd5s
  apply findMd5sAux_nil
  intro i
  by_cases hi : i < s.length
  · exact h i hi
  · have hlen : s.toList.length ≤ i := by
      have he : s.toList.length = s.length := rfl
      omega
    rw [List.drop_eq_nil_of_le hlen]
    decide

/-- Witness for the amended C4 on a page with no identifier-shaped token. -/
theorem C4_witness : findMd5s "<html>plain page with no hash link</html>" = [] :=
  C4_no_match_empty "<html>plain page with no hash link</html>" (by decide)

/-- C5: every record the search returns has extension pdf or epub, and an
item whose lowercased extension is mobi is dropped by the per-item filter,
so it is never present in the output. -/
theorem C5_extension_allow_list (ms : List MirrorBehavior) (r : Record)
    (h : r ∈ manualSearch ms) :
    (r.extension = "pdf" ∨ r.extension = "epub") ∧
    (∀ item : RawItem, pyLower (item.extension.getD "") = "mobi" →
       processItem item = none) := by
  constructor
  · obtain ⟨b, _, hrb⟩ := mem_manualSearch ms r h
    obtain ⟨item, hi⟩ := mem_tryMirror b r hrb
    obtain ⟨heq, hext⟩ := processItem_char item r hi
    subst heq
    exact hext
  · intro item hmobi
    unfold processItem
    have hno : ¬ (pyLower (item.extension.getD "") = "pdf" ∨
        pyLower (item.extension.getD "") = "epub") := by
      rw [hmobi]
      decide
    rw [if_neg hno]

/-- Witness for C5: a mirror answering a mobi item next to an epub item
yields only the epub record, whose extension is in the allow-list, while the
mobi item maps to no record. -/
theorem C5_witness :
    duneRecord ∈ manualSearch [mirrorMixed] ∧
    (duneRecord.extension = "pdf" ∨ duneRecord.extension = "epub") ∧
    processItem mobiItem = none :=
  ⟨by decide, (C5_extension_allow_list [mirrorMixed] duneRecord (by decide)).1,
   (C5_extension_allow_list [mirrorMixed] duneRecord (by decide)).2 mobiItem (by decide)⟩

/-- C6: the target path is a deterministic function of author, title, year
and extension alone; after a successful acquisition, any later call with the
same request short-circuits on the existing file, reports AlreadyExists with
the same filename, leaves the filesystem unchanged and performs zero network
requests; more generally any filesystem containing the target path
short-circuits the same way. -/
theorem C6_idempotent_acquire (d : DlRequest) (w : AcqWorld) (fs fs2 : FS)
    (fn : String) (h : downloadBook d w fs = (.acquired fn, fs2, 2)) :
    (∀ w2 fs3, fileExists (targetPath d) fs3 = true →
       downloadBook d w2 fs3 = (.alreadyExists (dlFilename d), fs3, 0)) ∧
    (∀ w2, downloadBook d w2 fs2 = (.alreadyExists fn, fs2, 0)) ∧
    (∀ d2 : DlRequest, d2.author = d.author → d2.title = d.title →
       d2.year = d.year → d2.extension = d.extension →
       targetPath d2 = targetPath d) := by
  obtain ⟨body, chunks, hu, hex, hg, hf, hfn, hfs2⟩ :=
    downloadBook_acquired_inv d w fs fs2 fn 2 h
  have hshort : ∀ w2 fs3, fileExists (targetPath d) fs3 = true →
      downloadBook d w2 fs3 = (.alreadyExists (dlFilename d), fs3, 0) := by
    intro w2 fs3 hex3
    unfold downloadBook
    rw [if_neg hu, if_pos hex3]
  refine ⟨hshort, ?_, ?_⟩
  · intro w2
    rw [hfn]
    apply hshort
    rw [hfs2]
    exact fileExists_writeFile _ _ _
  · intro d2 h1 h2 h3 h4
    simp only [targetPath, dlAuthor, dlTitle, dlFilename]
    rw [h1, h2, h3, h4]

/-- Witness for C6: a first acquisition over a live network succeeds and
writes the file; the identical second request then reports AlreadyExists
with zero network requests even though the whole network is down. -/
theorem C6_witness :
    downloadBook dEx wOk [] =
      (.acquired (dlFilename dEx), writeFile (targetPath dEx) "DATA" [], 2) ∧
    downloadBook dEx wDown (writeFile (targetPath dEx) "DATA" []) =
      (.alreadyExists (dlFilename dEx), writeFile (targetPath dEx) "DATA" [], 0) :=
  ⟨by decide,
   (C6_idempotent_acquire dEx wOk [] (writeFile (targetPath dEx) "DATA" [])
     (dlFilename dEx) (by decide)).2.1 wDown⟩

end Monolith

namespace Monolith

/-- Counterexample to C7: a transfer whose connection resets after one chunk
was streamed leaves that partial content visible at the final target path
while the failure is reported, because the chunk loop writes straight to the
target file and nothing cleans it up. -/
theorem C7_counterexample :
    downloadBook dEx wReset [] =
      (.failed "Connection reset by peer", [(targetPath dEx, "PARTIAL")], 2) ∧
    fileExists (targetPath dEx) [(targetPath dEx, "PARTIAL")] = true :=
  ⟨by decide, by decide⟩

/-- C7 as amended: a transfer that fails before any body byte is consumed,
by a non-success status through raise_for_status or by the request itself
raising, aborts before the write starts, leaves the filesystem unchanged and
surfaces the underlying reason; a failure during streaming also surfaces its
reason but leaves the already-written chunks at the final target path. -/
theorem C7_pre_stream_failure_atomic (d : DlRequest) (w : AcqWorld) (fs : FS)
    (body : String) (hu : d.url.getD "" ≠ "")
    (hex : fileExists (targetPath d) fs = false)
    (hg : w.gatewayBody = some body) :
    (∀ code, w.fileResp (resolveGateway (d.url.getD "") body) = .badStatus code →
       downloadBook d w fs = (.failed (statusReason code), fs, 2)) ∧
    (∀ msg, w.fileResp (resolveGateway (d.url.getD "") body) = .netError msg →
       downloadBook d w fs = (.failed msg, fs, 2)) ∧
    (∀ chunks msg,
       w.fileResp (resolveGateway (d.url.getD "") body) = .stream chunks (some msg) →
       downloadBook d w fs =
         (.failed msg, writeFile (targetPath d) (String.join chunks) fs, 2)) := by
  have hne : ¬ fileExists (targetPath d) fs = true := by simp [hex]
  refine ⟨?_, ?_, ?_⟩
  · intro code hf
    unfold downloadBook
    rw [if_neg hu, if_neg hne]
    simp only [hg, hf]
  · intro msg hf
    unfold downloadBook
    rw [if_neg hu, if_neg hne]
    simp only [hg, hf]
  · intro chunks msg hf
    unfold downloadBook
    rw [if_neg hu, if_neg hne]
    simp only [hg, hf]

/-- Witness for the amended C7: a 404 transfer aborts with the reason and an
unchanged empty filesystem. -/
theorem C7_witness :
    downloadBook dEx wNotFound [] = (.failed (statusReason 404), [], 2) :=
  (C7_pre_stream_failure_atomic dEx wNotFound [] exGateBody (by decide) (by decide)
    rfl).1 404 rfl

/-- Counterexample to C8: a landing page whose only anchor is an absolute
scheme-qualified ftp link. The claim says the resolver returns the first
absolute link, here the ftp one; the code only accepts links starting with
http and therefore falls back to the landing-page url instead. -/
theorem C8_counterexample :
    findHrefs ftpBody = ["ftp://files.example/book.pdf"] ∧
    isSchemeQualified "ftp://files.example/book.pdf" = true ∧
    resolveGatewaySpec "http://landing.example/page" ftpBody =
      "ftp://files.example/book.pdf" ∧
    resolveGateway "http://landing.example/page" ftpBody =
      "http://landing.example/page" :=
  ⟨by decide, by decide, by decide, by decide⟩

/-- C8 as amended: the resolver takes the first anchor href starting with
http in document order, skipping relative links and links of any other
scheme; whenever every href on the page is scheme-qualified exactly when it
starts with http, this coincides with the first-absolute-link reading of the
spec; and when no href starts with http it falls back to the original
landing-page url unchanged. -/
theorem C8_first_http_link (rawUrl body : String)
    (h : ∀ x ∈ findHrefs body, isSchemeQualified x = startsHttp x) :
    resolveGateway rawUrl body = resolveGatewaySpec rawUrl body ∧
    ((findHrefs body).find? startsHttp = none →
       resolveGateway rawUrl body = rawUrl) := by
  constructor
  · unfold resolveGateway resolveGatewaySpec
    rw [find_congr (findHrefs body) startsHttp isSchemeQualified
      (fun x hx => (h x hx).symm)]
  · intro h2
    unfold resolveGateway
    rw [h2]

/-- Witness for the amended C8 on the spec example markup: the relative link
is skipped and the first http link wins, agreeing with the spec reading. -/
theorem C8_witness :
    resolveGateway "http://landing.example/page" exGateBody =
      resolveGatewaySpec "http://landing.example/page" exGateBody ∧
    resolveGateway "http://landing.example/page" exGateBody =
      "http://files.example/book.pdf" :=
  ⟨(C8_first_http_link "http://landing.example/page" exGateBody (by decide)).1,
   by decide⟩

/-- C9: every record built from a successful metadata lookup carries the
cleaned title and author, where cleaning of a non-empty present field is
exactly collapse-whitespace then capwords then strip-unsafe-characters, the
lowercased extension, and the fixed gateway template applied to the
identifier of the item. -/
theorem C9_metadata_normalization (item : RawItem) (r : Record)
    (h : processItem item = some r) :
    r.title = cleanText item.title ∧
    r.author = cleanText item.author ∧
    r.extension = pyLower (item.extension.getD "") ∧
    r.download_url = gatewayUrl item.md5 ∧
    (∀ t, item.title = some t → t ≠ "" →
       r.title = stripUnsafe (capwords (collapseWs t))) := by
  obtain ⟨heq, _⟩ := processItem_char item r h
  subst heq
  refine ⟨rfl, rfl, rfl, rfl, ?_⟩
  intro t ht hne
  show cleanText item.title = _
  rw [ht]
  simp only [cleanText]
  rw [if_neg hne]

/-- Witness for C9: the dune scenario end to end. The single mirror yields
the record with title Dune Messiah, author Frank Herbert and extension epub,
and its fields are the normalization of the raw item. -/
theorem C9_witness :
    manualSearch [mirrorDune] = [duneRecord] ∧
    (duneRecord.title = cleanText exItem.title ∧
     duneRecord.author = cleanText exItem.author ∧
     duneRecord.extension = pyLower (exItem.extension.getD "") ∧
     duneRecord.download_url = gatewayUrl exItem.md5 ∧
     (∀ t, exItem.title = some t → t ≠ "" →
        duneRecord.title = stripUnsafe (capwords (collapseWs t)))) :=
  ⟨by decide, C9_metadata_normalization exItem duneRecord (by decide)⟩

/-- Counterexample to C10: a present title consisting of a single space
normalizes to the empty string, so a search record can carry an empty title;
non-emptiness holds only when the upstream field is missing or empty. -/
theorem C10_counterexample :
    cleanText (some " ") = "" ∧
    (manualSearch [mirrorWs]).map Record.title = [""] :=
  ⟨by decide, by decide⟩

/-- C10 as amended: clean_text maps a missing value and the empty string to
the sentinel Unknown, so a record whose upstream title or author is missing
or empty gets the non-empty sentinel, and the acquisition path components
are non-empty whenever the corresponding request field is missing or empty;
a present non-empty field may still normalize to the empty string. -/
theorem C10_sentinel_nonempty :
    cleanText none = "Unknown" ∧ cleanText (some "") = "Unknown" ∧
    (∀ item r, processItem item = some r →
       (item.title = none ∨ item.title = some "") → r.title = "Unknown") ∧
    (∀ item r, processItem item = some r →
       (item.author = none ∨ item.author = some "") → r.author = "Unknown") ∧
    (∀ d : DlRequest, (d.author = none ∨ d.author = some "") → dlAuthor d ≠ "") ∧
    (∀ d : DlRequest, (d.title = none ∨ d.title = some "") → dlTitle d ≠ "") := by
  refine ⟨by decide, by decide, ?_, ?_, ?_, ?_⟩
  · intro item r h ht
    obtain ⟨heq, _⟩ := processItem_char item r h
    subst heq
    show cleanText item.title = "Unknown"
    rcases ht with h1 | h1 <;> rw [h1] <;> decide
  · intro item r h ha
    obtain ⟨heq, _⟩ := processItem_char item r h
    subst heq
    show cleanText item.author = "Unknown"
    rcases ha with h1 | h1 <;> rw [h1] <;> decide
  · intro d hd
    unfold dlAuthor
    rcases hd with h1 | h1 <;> rw [h1] <;> decide
  · intro d hd
    unfold dlTitle
    rcases hd with h1 | h1 <;> rw [h1] <;> decide

/-- Witness for the amended C10: the item with no title key yields the
record titled Unknown. -/
theorem C10_witness :
    processItem noTitleItem = some noTitleRecord ∧ noTitleRecord.title = "Unknown" :=
  ⟨by decide,
   C10_sentinel_nonempty.2.2.1 noTitleItem noTitleRecord (by decide) (Or.inl rfl)⟩

end Monolith
